import Mathlib

/-!
Verification of the MediTrack backend dosing-safety engine.

Shallow embedding of the TypeScript sources:
  - src/utils/timezoneUtils.ts        (time normalization, fixed UTC+5:30 offset)
  - src/utils/barcodeUtils.ts         (interval dose gate, barcode generation)
  - src/utils/medicationTimingUtils.ts (meal-window timing validator)
  - src/controllers/barcodeController.ts (meal-window wrapper, barcode dose recording)
  - src/controllers/patientController.ts (dose-logging safety aggregator)

Modelling conventions:
  - Instants are rational numbers of milliseconds (JS Date.getTime); JS
    floating-point arithmetic is modelled exactly over the rationals.
  - Wall-clock times of day ("HH:MM" strings in the source) are modelled by
    their value in minutes since midnight as integers; the source's
    timeToMinutes/minutesToTime string round-trip is the identity on the
    minute values every claim exercises.
  - The server process is taken to run at UTC (getTimezoneOffset() = 0), so
    the IST conversion is a fixed shift of +5:30.
  - Fallible external calls (the meal-time fetch guarded by try/catch) are
    modelled with Except.
-/

namespace MediTrack

/-! ## Time normalization (src/utils/timezoneUtils.ts) -/

/-- IST offset in milliseconds: 5.5 hours. -/
def istOffsetMs : ℚ := 19800000

/-- Milliseconds per hour: 1000 * 60 * 60. -/
def msPerHour : ℚ := 3600000

/-- getCurrentIST: current instant shifted to the IST frame. -/
def getCurrentIST (nowUTC : ℚ) : ℚ := nowUTC + istOffsetMs

/-- convertUTCToIST: shift a stored UTC instant to the IST frame. -/
def convertUTCToIST (t : ℚ) : ℚ := t + istOffsetMs

/-! ## Interval dose gate (src/utils/barcodeUtils.ts, canTakeMedicationNow) -/

/-- Result record of canTakeMedicationNow. -/
structure IntervalCheck where
  canTake : Bool
  nextDoseTime : Option ℚ := none
  hoursRemaining : Option ℤ := none
deriving Repr, DecidableEq

/-- canTakeMedicationNow: permit a dose iff no previous dose exists or at
least 24/frequency hours have elapsed since the last dose; on denial return
the next allowed instant and a rounded-up count of hours remaining. -/
def canTakeMedicationNow (lastTaken : Option ℚ) (frequency : ℚ) (nowUTC : ℚ) :
    IntervalCheck :=
  match lastTaken with
  | none => { canTake := true }
  | some t =>
    let intervalHours : ℚ := 24 / frequency
    let now := getCurrentIST nowUTC
    let lastTakenIST := convertUTCToIST t
    let timeSinceLastDose : ℚ := (now - lastTakenIST) / msPerHour
    if timeSinceLastDose ≥ intervalHours then { canTake := true }
    else
      { canTake := false,
        nextDoseTime := some (lastTakenIST + intervalHours * msPerHour),
        hoursRemaining := some ⌈intervalHours - timeSinceLastDose⌉ }

/-! ## Meal-window timing validator (src/utils/medicationTimingUtils.ts) -/

/-- Meal identifiers. -/
inductive MealType
  | breakfast | lunch | dinner | snack
deriving Repr, DecidableEq

/-- Render a meal identifier the way the source's template literals do. -/
def MealType.str : MealType → String
  | .breakfast => "breakfast"
  | .lunch => "lunch"
  | .dinner => "dinner"
  | .snack => "snack"

/-- The closed set of timing relations a medication can carry. -/
inductive TimingRelation
  | before_food | after_food | with_food | empty_stomach | anytime
deriving Repr, DecidableEq

/-- The runtime meal-times object: a mapping from meal identifier to a time
of day in minutes since midnight; each key may be absent (the controller
builds it from whichever per-meal rows the store returns). -/
structure MealTimes where
  breakfast : Option ℤ := none
  lunch : Option ℤ := none
  dinner : Option ℤ := none
  snack : Option ℤ := none
deriving Repr, DecidableEq

/-- Field lookup on the meal-times object. -/
def MealTimes.get (mt : MealTimes) : MealType → Option ℤ
  | .breakfast => mt.breakfast
  | .lunch => mt.lunch
  | .dinner => mt.dinner
  | .snack => mt.snack

/-- Stable ascending sort of the three mandatory meals by time, mirroring
the source's Array.prototype.sort with comparator (a, b) => ta - tb. -/
def sortMeals3 (a b c : MealType × ℤ) :
    (MealType × ℤ) × (MealType × ℤ) × (MealType × ℤ) :=
  if a.2 ≤ b.2 then
    if b.2 ≤ c.2 then (a, b, c)
    else if a.2 ≤ c.2 then (a, c, b)
    else (c, a, b)
  else
    if a.2 ≤ c.2 then (b, a, c)
    else if b.2 ≤ c.2 then (b, c, a)
    else (c, b, a)

/-- calculateWindow: the intake window for one meal time, as a function of
the timing relation.  Windows are pairs (start, end) in minutes; the start
is clamped to be nonnegative.  For empty_stomach the source indexes the
sorted breakfast/lunch/dinner list; if one of those three times is absent
the source raises a TypeError (caught by the controller wrapper), modelled
here by the junk value (0, 0) which no claim exercises. -/
def calculateWindow (timingRelation : TimingRelation) (mealTime : ℤ)
    (mealTimes : MealTimes) : ℤ × ℤ :=
  match timingRelation with
  | .after_food => (max 0 (mealTime - 60), mealTime + 150)
  | .before_food => (max 0 (mealTime - 120), mealTime + 60)
  | .with_food => (max 0 (mealTime - 60), mealTime + 60)
  | .empty_stomach =>
    match mealTimes.breakfast, mealTimes.lunch, mealTimes.dinner with
    | some tb, some tl, some td =>
      let s := sortMeals3 (.breakfast, tb) (.lunch, tl) (.dinner, td)
      let m1 := s.1; let m2 := s.2.1; let m3 := s.2.2
      -- findIndex on the sorted list compares times; index -1 (not found,
      -- possible when the assigned meal is the snack) falls back to the
      -- last element for previousMeal and the first for nextMeal, exactly
      -- as the source's allMeals[i-1] || last / allMeals[i+1] || first.
      let pn : ℤ × ℤ :=
        if m1.2 = mealTime then (m3.2, m2.2)
        else if m2.2 = mealTime then (m1.2, m3.2)
        else if m3.2 = mealTime then (m2.2, m1.2)
        else (m3.2, m1.2)
      (pn.1 + 150, pn.2 - 120)
    | _, _, _ => (0, 0)
  | .anytime => (0, 1439)

/-- getMealsForFrequency: the fixed frequency-to-meal assignment table. -/
def getMealsForFrequency (frequency : ℕ) : List MealType :=
  match frequency with
  | 1 => [.lunch]
  | 2 => [.breakfast, .dinner]
  | 3 => [.breakfast, .lunch, .dinner]
  | 4 => [.breakfast, .lunch, .dinner, .snack]
  | _ => [.lunch]

/-- One computed intake window, as pushed by calculateMedicationWindows. -/
structure MedicationWindow where
  mealType : MealType
  mealTime : ℤ
  windowStart : ℤ
  windowEnd : ℤ
  isCurrentWindow : Bool
deriving Repr, DecidableEq

/-- calculateMedicationWindows: one window per assigned meal that has a
configured time (meals with no configured time are skipped). -/
def calculateMedicationWindows (frequency : ℕ)
    (timingRelation : TimingRelation) (mealTimes : MealTimes) :
    List MedicationWindow :=
  (getMealsForFrequency frequency).filterMap fun mealType =>
    (mealTimes.get mealType).map fun mealTime =>
      let w := calculateWindow timingRelation mealTime mealTimes
      { mealType := mealType, mealTime := mealTime,
        windowStart := w.1, windowEnd := w.2, isCurrentWindow := false }

/-- isTimeInWindow: containment of the current time in a window, treating
start > end as a window that wraps past midnight. -/
def isTimeInWindow (currentTime windowStart windowEnd : ℤ) : Bool :=
  if windowStart > windowEnd then
    currentTime ≥ windowStart || currentTime ≤ windowEnd
  else
    currentTime ≥ windowStart && currentTime ≤ windowEnd

/-- Render a minute count as the source's minutesToTime "HH:MM" string
(used only inside human-readable reason strings). -/
def minutesToTime (minutes : ℤ) : String :=
  let pad := fun (n : ℤ) =>
    let s := toString n
    if s.length < 2 then "0" ++ s else s
  pad (minutes / 60) ++ ":" ++ pad (minutes % 60)

/-- Result record of validateMedicationTiming. -/
structure TimingValidation where
  canTake : Bool
  reason : String
  currentWindows : List MedicationWindow
  nextWindow : Option MedicationWindow
  timeUntilNextWindow : Option String
deriving Repr, DecidableEq

/-- The source's Hh Mm countdown formatting. -/
def formatWait (w : ℤ) : String :=
  toString (w / 60) ++ "h " ++ toString (w % 60) ++ "m"

/-- validateMedicationTiming: anytime short-circuits to permit; otherwise
permit iff the current time lies in some assigned window, and on denial
report the window with the shortest forward wait (wrapping by 1440 when the
window start has already passed today). -/
def validateMedicationTiming (frequency : ℕ)
    (timingRelation : TimingRelation) (mealTimes : MealTimes)
    (now : ℤ) : TimingValidation :=
  if timingRelation = .anytime then
    { canTake := true,
      reason := "This medication can be taken at any time",
      currentWindows := [], nextWindow := none, timeUntilNextWindow := none }
  else
    let windows :=
      (calculateMedicationWindows frequency timingRelation mealTimes).map
        fun w =>
          { w with isCurrentWindow :=
              isTimeInWindow now w.windowStart w.windowEnd }
    let currentWindows := windows.filter (·.isCurrentWindow)
    match currentWindows with
    | first :: rest =>
      { canTake := true,
        reason := "Perfect timing! Take with " ++ first.mealType.str,
        currentWindows := first :: rest,
        nextWindow := none, timeUntilNextWindow := none }
    | [] =>
      let best : Option (MedicationWindow × ℤ) :=
        windows.foldl
          (fun acc w =>
            let wait0 := w.windowStart - now
            let wait := if wait0 ≤ 0 then wait0 + 1440 else wait0
            match acc with
            | none => some (w, wait)
            | some (_, bestWait) =>
              if wait < bestWait then some (w, wait) else acc)
          none
      match best with
      | none =>
        { canTake := false,
          reason := "Not the right time. Next window: undefined (undefined - undefined)",
          currentWindows := [], nextWindow := none,
          timeUntilNextWindow := none }
      | some (w, wait) =>
        { canTake := false,
          reason := "Not the right time. Next window: " ++ w.mealType.str
            ++ " (" ++ minutesToTime w.windowStart ++ " - "
            ++ minutesToTime w.windowEnd ++ ")",
          currentWindows := [], nextWindow := some w,
          timeUntilNextWindow := some (formatWait wait) }

/-! ## Meal-window wrapper (src/controllers/barcodeController.ts,
checkMedicationTimingWindow) -/

/-- One stored per-patient meal-time row (model of the MealTime document;
the enabled flag is stored but never consulted by the timing engine). -/
structure MealRec where
  mealId : MealType
  time : ℤ
  enabled : Bool := true
deriving Repr, DecidableEq

/-- The controller's meal-times object built by assigning
obj[meal.mealId] = meal.time over the fetched rows. -/
def mealTimesObjOf (recs : List MealRec) : MealTimes :=
  recs.foldl
    (fun acc r =>
      match r.mealId with
      | .breakfast => { acc with breakfast := some r.time }
      | .lunch => { acc with lunch := some r.time }
      | .dinner => { acc with dinner := some r.time }
      | .snack => { acc with snack := some r.time })
    {}

/-- checkMedicationTimingWindow: the try/catch wrapper around the timing
validator.  A failed meal-time fetch (the catch branch) and an empty fetch
result both degrade to permit. -/
def checkMedicationTimingWindow (fetch : Except String (List MealRec))
    (frequency : ℕ) (timingRelation : TimingRelation) (now : ℤ) :
    TimingValidation :=
  match fetch with
  | .error _ =>
    { canTake := true, reason := "Timing check failed - allowing dose",
      currentWindows := [], nextWindow := none, timeUntilNextWindow := none }
  | .ok mealTimes =>
    if mealTimes = [] then
      { canTake := true,
        reason := "Meal times not configured - taking anytime",
        currentWindows := [], nextWindow := none,
        timeUntilNextWindow := none }
    else
      validateMedicationTiming frequency timingRelation
        (mealTimesObjOf mealTimes) now

/-! ## Dosing safety aggregator (src/controllers/patientController.ts,
logMedicationTaken) and barcode dose recording
(src/controllers/barcodeController.ts, recordMedicationViaBarcode) -/

/-- Medication status values. -/
inductive MedStatus
  | active | paused | completed
deriving Repr, DecidableEq

/-- The fields of a medication record the dosing engine reads or writes.
Quantities are integers (the store constrains them to be nonnegative);
the expiry date is an instant in milliseconds. -/
structure Medication where
  frequency : ℕ
  timingRelation : TimingRelation
  remainingQuantity : ℤ
  expiryDate : ℚ
  status : MedStatus
  lastTaken : Option ℚ := none
deriving Repr, DecidableEq

/-- The metadata of the appended dose_taken activity event. -/
structure DoseEvent where
  wasOverridden : Bool
  safetyReason : String
  warnings : List String
  remainingQuantity : ℤ
deriving Repr, DecidableEq

/-- Outcome of the dose-logging aggregator: either a rejection payload or
the accepted dose's updated record, appended event, and optional low-stock
event (carrying the stock level). -/
inductive LogOutcome
  | rejected (reason : String) (warnings : List String)
  | accepted (newMed : Medication) (event : DoseEvent)
      (lowStock : Option ℤ) (reason : String) (warnings : List String)
deriving Repr, DecidableEq

/-- Primary reason of an outcome. -/
def LogOutcome.reason : LogOutcome → String
  | .rejected r _ => r
  | .accepted _ _ _ r _ => r

/-- Warnings list of an outcome. -/
def LogOutcome.warnings : LogOutcome → List String
  | .rejected _ w => w
  | .accepted _ _ _ _ w => w

/-- Whether the dose was accepted. -/
def LogOutcome.isAccepted : LogOutcome → Bool
  | .rejected _ _ => false
  | .accepted _ _ _ _ _ => true

/-- The updated medication record, when accepted. -/
def LogOutcome.newMed : LogOutcome → Option Medication
  | .rejected _ _ => none
  | .accepted m _ _ _ _ => some m

/-- The appended dose_taken event, when accepted. -/
def LogOutcome.event : LogOutcome → Option DoseEvent
  | .rejected _ _ => none
  | .accepted _ e _ _ _ => some e

/-- The interval-gate warning string pushed by the aggregator. -/
def intervalWarning (basic : IntervalCheck) : String :=
  "Next dose available in "
    ++ ((basic.hoursRemaining.map toString).getD "undefined") ++ " hours"

/-- The expiry warning string pushed by the aggregator (the source renders
expiryDate.toDateString(); modelled as a rendering of the instant). -/
def expiryWarning (med : Medication) : String :=
  "Medication expired on " ++ toString med.expiryDate

/-- The aggregator's sequential blockReason / safetyWarnings construction:
each failing check appends its warning, and the primary reason is set by
the first failing check (later checks only set it if it is still empty).
If the final verdict permits and no warnings were collected, the reason is
"Safe to take". -/
def blockReasonAndWarnings (basicCanTake : Bool) (basicWarn : String)
    (timingCanTake : Bool) (timingReason : String) (isExpired : Bool)
    (expiryWarn : String) (isActive : Bool) (hasQuantity : Bool)
    (finalCanTake : Bool) : String × List String :=
  let r0 : String := ""
  let w0 : List String := []
  let s1 := if !basicCanTake then
      ("Too soon for next dose", w0 ++ [basicWarn]) else (r0, w0)
  let s2 := if !timingCanTake then
      ((if s1.1 = "" then timingReason else s1.1), s1.2 ++ [timingReason])
    else s1
  let s3 := if isExpired then
      ((if s2.1 = "" then "Medication expired" else s2.1),
        s2.2 ++ [expiryWarn])
    else s2
  let s4 := if !isActive then
      ((if s3.1 = "" then "Medication not active" else s3.1),
        s3.2 ++ ["This medication is currently paused or inactive"])
    else s3
  let s5 := if !hasQuantity then
      ((if s4.1 = "" then "No medication remaining" else s4.1),
        s4.2 ++ ["No doses remaining - please contact your caregiver"])
    else s4
  ((if finalCanTake && decide (s5.2 = []) then "Safe to take" else s5.1), s5.2)

/-- logMedicationTaken: run the five safety checks, combine them (override
forces acceptance), and on acceptance decrement the stock floored at zero,
complete the medication at zero stock, append the dose_taken event carrying
the override flag and collected warnings, and emit a low_stock event when
the remaining stock lands in (0, 3]. -/
def logMedicationTaken (med : Medication) (lastDose : Option ℚ)
    (mealFetch : Except String (List MealRec)) (nowUTC : ℚ)
    (nowClock : ℤ) (override : Bool) : LogOutcome :=
  let basic := canTakeMedicationNow lastDose (med.frequency : ℚ) nowUTC
  let timing := checkMedicationTimingWindow mealFetch med.frequency
    med.timingRelation nowClock
  let isExpired : Bool := decide (med.expiryDate ≤ nowUTC)
  let hasQuantity : Bool := decide (med.remainingQuantity > 0)
  let isActive : Bool := decide (med.status = .active)
  let finalCanTake : Bool := override ||
    (basic.canTake && timing.canTake && !isExpired && isActive && hasQuantity)
  let rw := blockReasonAndWarnings basic.canTake (intervalWarning basic)
    timing.canTake timing.reason isExpired (expiryWarning med)
    isActive hasQuantity finalCanTake
  if !finalCanTake then
    .rejected rw.1 rw.2
  else
    let takenTime := getCurrentIST nowUTC
    let newQty := max 0 (med.remainingQuantity - 1)
    let newStatus := if newQty = 0 then MedStatus.completed else med.status
    let newMed := { med with
      lastTaken := some takenTime,
      remainingQuantity := newQty,
      status := newStatus }
    let event : DoseEvent :=
      { wasOverridden := override, safetyReason := rw.1,
        warnings := rw.2, remainingQuantity := newQty }
    let lowStock : Option ℤ :=
      if newQty ≤ 3 && decide (newQty > 0) then some newQty else none
    .accepted newMed event lowStock rw.1 rw.2

/-- recordMedicationViaBarcode: the barcode dose-recording path performs no
safety checks; it stamps lastTaken, decrements the stock floored at zero,
and completes the medication at zero stock (the appended dose_taken event
carries only the taken timestamp). -/
def recordMedicationViaBarcode (med : Medication) (takenTime : ℚ) :
    Medication :=
  let newQty := max 0 (med.remainingQuantity - 1)
  let newStatus := if newQty = 0 then MedStatus.completed else med.status
  { med with
    lastTaken := some takenTime,
    remainingQuantity := newQty,
    status := newStatus }

/-! ## Barcode identifier generator (src/utils/barcodeUtils.ts,
generateShortBarcodeData) -/

/-- A stored medication record as seen by the uniqueness query. -/
structure MedRecord where
  id : String
  barcodeData : String
deriving Repr, DecidableEq

/-- The last 8 characters of an identifier (the whole identifier when it is
shorter), upper-cased: the source's medicationId.slice(-8).toUpperCase(). -/
def idHash (medicationId : String) : String :=
  String.mk ((medicationId.data.drop (medicationId.length - 8)).map Char.toUpper)

/-- Whether some other record (different id) already holds the code:
Medication.findOne with barcodeData = code and _id distinct from the
generating medication. -/
def hasOtherHolder (store : List MedRecord) (medicationId code : String) :
    Bool :=
  store.any fun r => r.barcodeData == code && r.id != medicationId

/-- The candidate code for a given suffix counter (suffix 0 is the bare
base code, suffix n adds "-n"). -/
def barcodeCandidate (base : String) (suffix : ℕ) : String :=
  if suffix = 0 then base else base ++ "-" ++ toString suffix

/-- The collision-resolution loop: try the current candidate; on collision
increment the suffix, falling back to the timestamp-based code once the
suffix exceeds 999.  The fuel argument bounds the source's while(true) and
is never exhausted before the suffix guard fires. -/
def barcodeLoop (store : List MedRecord) (medicationId base fallback : String) :
    ℕ → ℕ → String
  | 0, _ => fallback
  | fuel + 1, suffix =>
    if !hasOtherHolder store medicationId (barcodeCandidate base suffix) then
      barcodeCandidate base suffix
    else if suffix + 1 > 999 then fallback
    else barcodeLoop store medicationId base fallback fuel (suffix + 1)

/-- generateShortBarcodeData: base code "MT" plus the upper-cased last 8
characters of the medication id, with suffix-based collision resolution
against the record store and a timestamp-based fallback (the fallback
string, built from the current timestamp and two random base36 characters,
is passed in as a parameter). -/
def generateShortBarcodeData (store : List MedRecord)
    (medicationId fallback : String) : String :=
  barcodeLoop store medicationId ("MT" ++ idHash medicationId) fallback 1001 0

/-- Whether a character is in [A-Z0-9]. -/
def isUpperAlnum (c : Char) : Bool := c.isUpper || c.isDigit

/-- The contract pattern MT[A-Z0-9]{8}(-[0-9]+)?. -/
def matchesBarcodePattern (s : String) : Bool :=
  match s.data with
  | 'M' :: 'T' :: rest =>
    let body := rest.take 8
    let tail := rest.drop 8
    body.length == 8 && body.all isUpperAlnum &&
      (match tail with
        | [] => true
        | '-' :: ds => !ds.isEmpty && ds.all Char.isDigit
        | _ => false)
  | _ => false

/-- The per-dose stock/status invariant of an updated medication record:
stock is the old stock decremented by 1 floored at 0 (exactly 1 whenever
stock was positive), never negative, and the status is completed exactly
when the new stock is 0 or it already was completed. -/
def doseDecrementInvariant (oldQty : ℤ) (oldStatus : MedStatus)
    (m : Medication) : Prop :=
  m.remainingQuantity = max 0 (oldQty - 1)
  ∧ 0 ≤ m.remainingQuantity
  ∧ (1 ≤ oldQty → m.remainingQuantity = oldQty - 1)
  ∧ (m.status = .completed
      ↔ (m.remainingQuantity = 0 ∨ oldStatus = .completed))

/-- Concrete fixture: the default breakfast, lunch and dinner rows. -/
def sampleMealRows : List MealRec :=
  [⟨.breakfast, 480, true⟩, ⟨.lunch, 750, true⟩, ⟨.dinner, 1140, true⟩]

/-- Concrete fixture: a medication that fails every safety check at the
evaluation instants used with it (last dose 0.1 hours ago, with_food at a
time outside every window, expired, paused, stock 0). -/
def medAllFail : Medication :=
  { frequency := 1, timingRelation := .with_food, remainingQuantity := 0,
    expiryDate := 0, status := .paused }

/-- Concrete fixture: an active medication whose stock is exhausted. -/
def medEmptyActive : Medication :=
  { frequency := 1, timingRelation := .anytime, remainingQuantity := 0,
    expiryDate := 1000000, status := .active }

/-! ## Helper lemmas -/

/-- A string extended by a nonempty suffix is nonempty. -/
theorem append_ne_empty_left (a b : String) (h : a ≠ "") : a ++ b ≠ "" := by
  intro hc
  apply h
  have hdata := congrArg String.data hc
  rw [String.data_append] at hdata
  rcases List.append_eq_nil.mp hdata with ⟨ha, _⟩
  cases a
  simp only at ha
  rw [ha]

/-- Every reason produced by validateMedicationTiming is a nonempty string. -/
theorem validateMedicationTiming_reason_ne_empty (frequency : ℕ)
    (timingRelation : TimingRelation) (mealTimes : MealTimes) (now : ℤ) :
    (validateMedicationTiming frequency timingRelation mealTimes now).reason
      ≠ "" := by
  unfold validateMedicationTiming
  split
  · decide
  · dsimp only
    split
    · apply append_ne_empty_left
      decide
    · split
      · decide
      · repeat apply append_ne_empty_left
        decide

/-- Every reason produced by checkMedicationTimingWindow is nonempty. -/
theorem checkMedicationTimingWindow_reason_ne_empty
    (fetch : Except String (List MealRec)) (frequency : ℕ)
    (timingRelation : TimingRelation) (now : ℤ) :
    (checkMedicationTimingWindow fetch frequency timingRelation now).reason
      ≠ "" := by
  cases fetch with
  | error e =>
    simp only [checkMedicationTimingWindow]
    decide
  | ok recs =>
    simp only [checkMedicationTimingWindow]
    split
    · decide
    · exact validateMedicationTiming_reason_ne_empty _ _ _ _

/-- The aggregator's reported reason is the blockReason it computed,
whether the dose is rejected or accepted. -/
theorem logMedicationTaken_reason (med : Medication) (lastDose : Option ℚ)
    (mealFetch : Except String (List MealRec)) (nowUTC : ℚ) (nowClock : ℤ)
    (override : Bool) :
    (logMedicationTaken med lastDose mealFetch nowUTC nowClock override).reason
      = (blockReasonAndWarnings
          (canTakeMedicationNow lastDose (med.frequency : ℚ) nowUTC).canTake
          (intervalWarning
            (canTakeMedicationNow lastDose (med.frequency : ℚ) nowUTC))
          (checkMedicationTimingWindow mealFetch med.frequency
            med.timingRelation nowClock).canTake
          (checkMedicationTimingWindow mealFetch med.frequency
            med.timingRelation nowClock).reason
          (decide (med.expiryDate ≤ nowUTC)) (expiryWarning med)
          (decide (med.status = .active))
          (decide (med.remainingQuantity > 0))
          (override ||
            ((canTakeMedicationNow lastDose (med.frequency : ℚ) nowUTC).canTake
              && (checkMedicationTimingWindow mealFetch med.frequency
                    med.timingRelation nowClock).canTake
              && !(decide (med.expiryDate ≤ nowUTC))
              && decide (med.status = .active)
              && decide (med.remainingQuantity > 0)))).1 := by
  unfold logMedicationTaken
  dsimp only
  split <;> rfl

/-- The aggregator's reported warnings are the safetyWarnings it computed,
whether the dose is rejected or accepted. -/
theorem logMedicationTaken_warnings (med : Medication) (lastDose : Option ℚ)
    (mealFetch : Except String (List MealRec)) (nowUTC : ℚ) (nowClock : ℤ)
    (override : Bool) :
    (logMedicationTaken med lastDose mealFetch nowUTC nowClock override).warnings
      = (blockReasonAndWarnings
          (canTakeMedicationNow lastDose (med.frequency : ℚ) nowUTC).canTake
          (intervalWarning
            (canTakeMedicationNow lastDose (med.frequency : ℚ) nowUTC))
          (checkMedicationTimingWindow mealFetch med.frequency
            med.timingRelation nowClock).canTake
          (checkMedicationTimingWindow mealFetch med.frequency
            med.timingRelation nowClock).reason
          (decide (med.expiryDate ≤ nowUTC)) (expiryWarning med)
          (decide (med.status = .active))
          (decide (med.remainingQuantity > 0))
          (override ||
            ((canTakeMedicationNow lastDose (med.frequency : ℚ) nowUTC).canTake
              && (checkMedicationTimingWindow mealFetch med.frequency
                    med.timingRelation nowClock).canTake
              && !(decide (med.expiryDate ≤ nowUTC))
              && decide (med.status = .active)
              && decide (med.remainingQuantity > 0)))).2 := by
  unfold logMedicationTaken
  dsimp only
  split <;> rfl

/-- The collected warnings are exactly the warnings of the failing checks,
in check order. -/
theorem blockReasonAndWarnings_snd (b : Bool) (bw : String) (t : Bool)
    (tr : String) (e : Bool) (ew : String) (a q f : Bool) :
    (blockReasonAndWarnings b bw t tr e ew a q f).2 =
      (if b = false then [bw] else []) ++ (if t = false then [tr] else [])
        ++ (if e = true then [ew] else [])
        ++ (if a = false then
              ["This medication is currently paused or inactive"] else [])
        ++ (if q = false then
              ["No doses remaining - please contact your caregiver"]
            else []) := by
  cases b <;> cases t <;> cases e <;> cases a <;> cases q <;>
    simp [blockReasonAndWarnings]

/-- A failing interval gate is the first check, so it owns the primary
reason. -/
theorem blockReasonAndWarnings_fst_basic (b : Bool) (bw : String) (t : Bool)
    (tr : String) (e : Bool) (ew : String) (a q f : Bool) (hb : b = false) :
    (blockReasonAndWarnings b bw t tr e ew a q f).1
      = "Too soon for next dose" := by
  subst hb
  cases t <;> cases e <;> cases a <;> cases q <;> cases f <;>
    simp [blockReasonAndWarnings]

/-- With the interval gate passing, a failing timing window owns the
primary reason (its reason string being nonempty). -/
theorem blockReasonAndWarnings_fst_timing (b : Bool) (bw : String) (t : Bool)
    (tr : String) (e : Bool) (ew : String) (a q f : Bool) (hb : b = true)
    (ht : t = false) (htr : tr ≠ "") :
    (blockReasonAndWarnings b bw t tr e ew a q f).1 = tr := by
  subst hb; subst ht
  cases e <;> cases a <;> cases q <;> cases f <;>
    simp [blockReasonAndWarnings, htr]

/-- With the first two checks passing, expiry owns the primary reason. -/
theorem blockReasonAndWarnings_fst_expired (b : Bool) (bw : String)
    (t : Bool) (tr : String) (e : Bool) (ew : String) (a q f : Bool)
    (hb : b = true) (ht : t = true) (he : e = true) :
    (blockReasonAndWarnings b bw t tr e ew a q f).1
      = "Medication expired" := by
  subst hb; subst ht; subst he
  cases a <;> cases q <;> cases f <;> simp [blockReasonAndWarnings]

/-- With the first three checks passing, an inactive status owns the
primary reason. -/
theorem blockReasonAndWarnings_fst_status (b : Bool) (bw : String)
    (t : Bool) (tr : String) (e : Bool) (ew : String) (a q f : Bool)
    (hb : b = true) (ht : t = true) (he : e = false) (ha : a = false) :
    (blockReasonAndWarnings b bw t tr e ew a q f).1
      = "Medication not active" := by
  subst hb; subst ht; subst he; subst ha
  cases q <;> cases f <;> simp [blockReasonAndWarnings]

/-- With the first four checks passing, empty stock owns the primary
reason. -/
theorem blockReasonAndWarnings_fst_stock (b : Bool) (bw : String)
    (t : Bool) (tr : String) (e : Bool) (ew : String) (a q f : Bool)
    (hb : b = true) (ht : t = true) (he : e = false) (ha : a = true)
    (hq : q = false) :
    (blockReasonAndWarnings b bw t tr e ew a q f).1
      = "No medication remaining" := by
  subst hb; subst ht; subst he; subst ha; subst hq
  cases f <;> simp [blockReasonAndWarnings]

/-- C1: in every dose-logging evaluation the primary reported reason is
that of the first failing check in the fixed precedence order interval
gate, meal-window timing, expiry, status, stock; all five checks are
computed and every failing check's warning message appears in the returned
warnings list (in particular, a medication failing both the interval gate
and the expiry check reports the interval-gate reason as primary while the
expiry message appears in the warnings). -/
theorem aggregator_precedence (med : Medication) (lastDose : Option ℚ)
    (mealFetch : Except String (List MealRec)) (nowUTC : ℚ) (nowClock : ℤ)
    (override : Bool) :
    let basic := canTakeMedicationNow lastDose (med.frequency : ℚ) nowUTC
    let timing := checkMedicationTimingWindow mealFetch med.frequency
      med.timingRelation nowClock
    let o := logMedicationTaken med lastDose mealFetch nowUTC nowClock
      override
    (basic.canTake = false → o.reason = "Too soon for next dose")
    ∧ (basic.canTake = true → timing.canTake = false →
        o.reason = timing.reason)
    ∧ (basic.canTake = true → timing.canTake = true →
        med.expiryDate ≤ nowUTC → o.reason = "Medication expired")
    ∧ (basic.canTake = true → timing.canTake = true →
        ¬ med.expiryDate ≤ nowUTC → med.status ≠ .active →
        o.reason = "Medication not active")
    ∧ (basic.canTake = true → timing.canTake = true →
        ¬ med.expiryDate ≤ nowUTC → med.status = .active →
        med.remainingQuantity ≤ 0 → o.reason = "No medication remaining")
    ∧ (basic.canTake = false → intervalWarning basic ∈ o.warnings)
    ∧ (timing.canTake = false → timing.reason ∈ o.warnings)
    ∧ (med.expiryDate ≤ nowUTC → expiryWarning med ∈ o.warnings)
    ∧ (med.status ≠ .active →
        "This medication is currently paused or inactive" ∈ o.warnings)
    ∧ (med.remainingQuantity ≤ 0 →
        "No doses remaining - please contact your caregiver" ∈ o.warnings)
    := by
  dsimp only
  have hr := logMedicationTaken_reason med lastDose mealFetch nowUTC
    nowClock override
  have hw := logMedicationTaken_warnings med lastDose mealFetch nowUTC
    nowClock override
  refine ⟨?_, ?_, ?_, ?_, ?_, ?_, ?_, ?_, ?_, ?_⟩
  · intro hb
    rw [hr]
    exact blockReasonAndWarnings_fst_basic _ _ _ _ _ _ _ _ _ hb
  · intro hb ht
    rw [hr]
    exact blockReasonAndWarnings_fst_timing _ _ _ _ _ _ _ _ _ hb ht
      (checkMedicationTimingWindow_reason_ne_empty _ _ _ _)
  · intro hb ht he
    rw [hr]
    exact blockReasonAndWarnings_fst_expired _ _ _ _ _ _ _ _ _ hb ht
      (decide_eq_true he)
  · intro hb ht he ha
    rw [hr]
    exact blockReasonAndWarnings_fst_status _ _ _ _ _ _ _ _ _ hb ht
      (decide_eq_false he) (decide_eq_false ha)
  · intro hb ht he ha hq
    rw [hr]
    exact blockReasonAndWarnings_fst_stock _ _ _ _ _ _ _ _ _ hb ht
      (decide_eq_false he) (decide_eq_true ha)
      (decide_eq_false (not_lt.mpr hq))
  · intro hb
    rw [hw, blockReasonAndWarnings_snd]
    simp [hb]
  · intro ht
    rw [hw, blockReasonAndWarnings_snd]
    simp [ht]
  · intro he
    have he' : decide (med.expiryDate ≤ nowUTC) = true := decide_eq_true he
    rw [hw, blockReasonAndWarnings_snd]
    simp [he']
  · intro ha
    have ha' : decide (med.status = .active) = false := decide_eq_false ha
    rw [hw, blockReasonAndWarnings_snd]
    simp [ha']
  · intro hq
    have hq' : decide (med.remainingQuantity > 0) = false :=
      decide_eq_false (not_lt.mpr hq)
    rw [hw, blockReasonAndWarnings_snd]
    simp [hq']

/-- C1 at a concrete input: a medication failing both the interval gate
(last dose 0.1 hours ago at frequency 1) and the expiry check reports the
interval-gate reason as primary, with the expiry message in the
warnings. -/
theorem aggregator_precedence_check :
    (canTakeMedicationNow (some 0) ((1 : ℕ) : ℚ) 360000).canTake = false
    ∧ (0 : ℚ) ≤ 360000
    ∧ (logMedicationTaken
        { frequency := 1, timingRelation := .anytime,
          remainingQuantity := 5, expiryDate := 0, status := .active }
        (some 0) (.ok []) 360000 0 false).reason = "Too soon for next dose"
    ∧ expiryWarning
        { frequency := 1, timingRelation := .anytime,
          remainingQuantity := 5, expiryDate := 0, status := .active }
      ∈ (logMedicationTaken
          { frequency := 1, timingRelation := .anytime,
            remainingQuantity := 5, expiryDate := 0, status := .active }
          (some 0) (.ok []) 360000 0 false).warnings := by
  have hb : (canTakeMedicationNow (some 0) ((1 : ℕ) : ℚ) 360000).canTake
      = false := by
    simp [canTakeMedicationNow, getCurrentIST, convertUTCToIST, istOffsetMs,
      msPerHour]
    norm_num
  have he : (0 : ℚ) ≤ 360000 := by norm_num
  have h := aggregator_precedence
    { frequency := 1, timingRelation := .anytime, remainingQuantity := 5,
      expiryDate := 0, status := .active }
    (some 0) (.ok []) 360000 0 false
  dsimp only at h
  exact ⟨hb, he, h.1 hb, h.2.2.2.2.2.2.2.1 he⟩

/-- The elapsed-hours expression of the interval gate is offset
invariant. -/
theorem elapsedHours_eq (t now : ℚ) :
    (getCurrentIST now - convertUTCToIST t) / msPerHour
      = (now - t) / msPerHour := by
  unfold getCurrentIST convertUTCToIST
  ring_nf

/-- The interval gate permits a dose with a previous dose on record iff the
elapsed hours reach the interval. -/
theorem canTakeMedicationNow_canTake_iff (f t now : ℚ) :
    (canTakeMedicationNow (some t) f now).canTake = true
      ↔ (now - t) / msPerHour ≥ 24 / f := by
  by_cases hge : (now - t) / msPerHour ≥ 24 / f
  · simp [canTakeMedicationNow, elapsedHours_eq, if_pos, hge]
  · simp [canTakeMedicationNow, elapsedHours_eq, if_neg, hge]

/-- Characterization of a denied interval-gate check. -/
theorem canTakeMedicationNow_denied (f t now : ℚ)
    (hc : (canTakeMedicationNow (some t) f now).canTake = false) :
    (now - t) / msPerHour < 24 / f
    ∧ (canTakeMedicationNow (some t) f now).hoursRemaining
        = some ⌈24 / f - (now - t) / msPerHour⌉
    ∧ (canTakeMedicationNow (some t) f now).nextDoseTime
        = some (convertUTCToIST t + 24 / f * msPerHour) := by
  by_cases hge : (now - t) / msPerHour ≥ 24 / f
  · rw [canTakeMedicationNow_canTake_iff f t now |>.mpr hge] at hc
    exact absurd hc (by decide)
  · refine ⟨lt_of_not_ge hge, ?_, ?_⟩ <;>
      simp [canTakeMedicationNow, elapsedHours_eq, if_neg, hge]

/-- C2: for every frequency in 1..6 the interval gate permits the dose
when no last dose exists; otherwise it permits iff the elapsed hours reach
24/frequency, and on denial it returns nextDoseTime = lastTaken (in the
local frame) + 24/frequency hours and hoursRemaining =
ceil(24/frequency - elapsedHours), an integer that is at least 1. -/
theorem interval_gate_contract (freq : ℕ) (t nowUTC : ℚ) (h1 : 1 ≤ freq)
    (h6 : freq ≤ 6) :
    (canTakeMedicationNow none (freq : ℚ) nowUTC).canTake = true
    ∧ ((canTakeMedicationNow (some t) (freq : ℚ) nowUTC).canTake = true
        ↔ (nowUTC - t) / msPerHour ≥ 24 / (freq : ℚ))
    ∧ ((canTakeMedicationNow (some t) (freq : ℚ) nowUTC).canTake = false →
        (canTakeMedicationNow (some t) (freq : ℚ) nowUTC).nextDoseTime
          = some (convertUTCToIST t + 24 / (freq : ℚ) * msPerHour)
        ∧ (canTakeMedicationNow (some t) (freq : ℚ) nowUTC).hoursRemaining
          = some ⌈24 / (freq : ℚ) - (nowUTC - t) / msPerHour⌉
        ∧ 1 ≤ ⌈24 / (freq : ℚ) - (nowUTC - t) / msPerHour⌉) := by
  refine ⟨rfl, canTakeMedicationNow_canTake_iff _ _ _, ?_⟩
  intro hc
  obtain ⟨hlt, hhr, hnext⟩ := canTakeMedicationNow_denied _ _ _ hc
  refine ⟨hnext, hhr, ?_⟩
  have hpos : 0 < ⌈24 / (freq : ℚ) - (nowUTC - t) / msPerHour⌉ :=
    Int.ceil_pos.mpr (by linarith)
  omega

/-- C2 at a concrete input: frequency 3, one hour elapsed since the last
dose. -/
theorem interval_gate_contract_check :
    ((1 : ℕ) ≤ 3 ∧ (3 : ℕ) ≤ 6)
    ∧ ((canTakeMedicationNow none ((3 : ℕ) : ℚ) 3600000).canTake = true
      ∧ ((canTakeMedicationNow (some 0) ((3 : ℕ) : ℚ) 3600000).canTake = true
          ↔ (3600000 - 0 : ℚ) / msPerHour ≥ 24 / ((3 : ℕ) : ℚ))
      ∧ ((canTakeMedicationNow (some 0) ((3 : ℕ) : ℚ) 3600000).canTake = false →
          (canTakeMedicationNow (some 0) ((3 : ℕ) : ℚ) 3600000).nextDoseTime
            = some (convertUTCToIST 0 + 24 / ((3 : ℕ) : ℚ) * msPerHour)
          ∧ (canTakeMedicationNow (some 0) ((3 : ℕ) : ℚ) 3600000).hoursRemaining
            = some ⌈24 / ((3 : ℕ) : ℚ) - (3600000 - 0 : ℚ) / msPerHour⌉
          ∧ 1 ≤ ⌈24 / ((3 : ℕ) : ℚ) - (3600000 - 0 : ℚ) / msPerHour⌉)) :=
  ⟨⟨by decide, by decide⟩,
    interval_gate_contract 3 0 3600000 (by decide) (by decide)⟩

/-- C9 (amended): while the interval gate stays denied for a fixed
frequency and last-dose instant, hoursRemaining is non-increasing as the
evaluation instant advances, strictly decreases when the instant advances
by at least a full hour, and is never below 1 while blocked. -/
theorem interval_gate_monotone (freq : ℕ) (t now1 now2 : ℚ) (hr1 hr2 : ℤ)
    (hf1 : 1 ≤ freq) (hf6 : freq ≤ 6) (h12 : now1 ≤ now2)
    (d1 : (canTakeMedicationNow (some t) (freq : ℚ) now1).canTake = false)
    (d2 : (canTakeMedicationNow (some t) (freq : ℚ) now2).canTake = false)
    (e1 : (canTakeMedicationNow (some t) (freq : ℚ) now1).hoursRemaining
            = some hr1)
    (e2 : (canTakeMedicationNow (some t) (freq : ℚ) now2).hoursRemaining
            = some hr2) :
    hr2 ≤ hr1 ∧ 1 ≤ hr1 ∧ 1 ≤ hr2
      ∧ (now1 + msPerHour ≤ now2 → hr2 < hr1) := by
  obtain ⟨hlt1, hhr1, _⟩ := canTakeMedicationNow_denied _ _ _ d1
  obtain ⟨hlt2, hhr2, _⟩ := canTakeMedicationNow_denied _ _ _ d2
  rw [e1] at hhr1
  rw [e2] at hhr2
  have hq1 : hr1 = ⌈24 / (freq : ℚ) - (now1 - t) / msPerHour⌉ :=
    Option.some.inj hhr1
  have hq2 : hr2 = ⌈24 / (freq : ℚ) - (now2 - t) / msPerHour⌉ :=
    Option.some.inj hhr2
  have hms : (0 : ℚ) < msPerHour := by norm_num [msPerHour]
  have hmono : (now1 - t) / msPerHour ≤ (now2 - t) / msPerHour :=
    div_le_div_of_nonneg_right (by linarith) hms.le
  refine ⟨?_, ?_, ?_, ?_⟩
  · rw [hq1, hq2]
    exact Int.ceil_le_ceil (by linarith)
  · have := Int.ceil_pos.mpr (show
      (0 : ℚ) < 24 / (freq : ℚ) - (now1 - t) / msPerHour by linarith)
    omega
  · have := Int.ceil_pos.mpr (show
      (0 : ℚ) < 24 / (freq : ℚ) - (now2 - t) / msPerHour by linarith)
    omega
  · intro hstep
    have hshift : (now1 - t) / msPerHour + 1 ≤ (now2 - t) / msPerHour := by
      have hd : now1 - t + msPerHour ≤ now2 - t := by linarith
      have := div_le_div_of_nonneg_right hd hms.le
      rwa [add_div, div_self (ne_of_gt hms)] at this
    have hkey : hr2 ≤ hr1 - 1 := by
      rw [hq1, hq2]
      have step1 : ⌈24 / (freq : ℚ) - (now2 - t) / msPerHour⌉
          ≤ ⌈24 / (freq : ℚ) - (now1 - t) / msPerHour - 1⌉ :=
        Int.ceil_le_ceil (by linarith)
      have step2 : ⌈24 / (freq : ℚ) - (now1 - t) / msPerHour - 1⌉
          = ⌈24 / (freq : ℚ) - (now1 - t) / msPerHour⌉ - 1 :=
        Int.ceil_sub_one _
      omega
    omega

/-- C9 (amended) at a concrete input: frequency 1, last dose at 0,
evaluations 0.1 hours and 10/9 hours later. -/
theorem interval_gate_monotone_check :
    (1 : ℕ) ≤ 1 ∧ (1 : ℕ) ≤ 6 ∧ (360000 : ℚ) ≤ 4000000
    ∧ (canTakeMedicationNow (some 0) ((1 : ℕ) : ℚ) 360000).canTake = false
    ∧ (canTakeMedicationNow (some 0) ((1 : ℕ) : ℚ) 4000000).canTake = false
    ∧ (canTakeMedicationNow (some 0) ((1 : ℕ) : ℚ) 360000).hoursRemaining
        = some 24
    ∧ (canTakeMedicationNow (some 0) ((1 : ℕ) : ℚ) 4000000).hoursRemaining
        = some 23
    ∧ ((23 : ℤ) ≤ 24 ∧ (1 : ℤ) ≤ 24 ∧ (1 : ℤ) ≤ 23
        ∧ ((360000 : ℚ) + msPerHour ≤ 4000000 → (23 : ℤ) < 24)) := by
  have d1 : (canTakeMedicationNow (some 0) ((1 : ℕ) : ℚ) 360000).canTake
      = false := by
    simp [canTakeMedicationNow, getCurrentIST, convertUTCToIST, istOffsetMs,
      msPerHour]
    norm_num
  have d2 : (canTakeMedicationNow (some 0) ((1 : ℕ) : ℚ) 4000000).canTake
      = false := by
    simp [canTakeMedicationNow, getCurrentIST, convertUTCToIST, istOffsetMs,
      msPerHour]
    norm_num
  have e1 : (canTakeMedicationNow (some 0) ((1 : ℕ) : ℚ) 360000).hoursRemaining
      = some 24 := by
    simp [canTakeMedicationNow, getCurrentIST, convertUTCToIST, istOffsetMs,
      msPerHour]
    norm_num
    rw [Int.ceil_eq_iff] <;> norm_num
  have e2 : (canTakeMedicationNow (some 0) ((1 : ℕ) : ℚ) 4000000).hoursRemaining
      = some 23 := by
    simp [canTakeMedicationNow, getCurrentIST, convertUTCToIST, istOffsetMs,
      msPerHour]
    norm_num
    rw [Int.ceil_eq_iff] <;> norm_num
  exact ⟨by decide, by decide, by norm_num, d1, d2, e1, e2,
    interval_gate_monotone 1 0 360000 4000000 24 23 (by decide) (by decide)
      (by norm_num) d1 d2 e1 e2⟩

/-- C9 fails as stated: at frequency 1 with last dose at instant 0, the
evaluations 0.1 and 0.2 hours later are both denied, the instants strictly
increase, yet hoursRemaining stays 24 rather than strictly decreasing. -/
theorem interval_gate_strict_decrease_fails :
    (360000 : ℚ) < 720000
    ∧ (canTakeMedicationNow (some 0) ((1 : ℕ) : ℚ) 360000).canTake = false
    ∧ (canTakeMedicationNow (some 0) ((1 : ℕ) : ℚ) 720000).canTake = false
    ∧ (canTakeMedicationNow (some 0) ((1 : ℕ) : ℚ) 360000).hoursRemaining
        = some 24
    ∧ (canTakeMedicationNow (some 0) ((1 : ℕ) : ℚ) 720000).hoursRemaining
        = some 24
    ∧ ¬ (24 : ℤ) < 24 := by
  refine ⟨by norm_num, ?_, ?_, ?_, ?_, by decide⟩ <;>
    · simp [canTakeMedicationNow, getCurrentIST, convertUTCToIST,
        istOffsetMs, msPerHour]
      norm_num
      try rw [Int.ceil_eq_iff] <;> norm_num

/-- C3: the intake window is [T-60, T+150] for after_food, [T-120, T+60]
for before_food, and [T-60, T+60] for with_food, with the start clamped to
at least 0; a window whose start exceeds its end wraps past midnight, and a
current time lies in it iff it lies in [start, 1439] or in [0, end]. -/
theorem window_formulas (T : ℤ) (mt : MealTimes) (cur s e : ℤ)
    (hwrap : s > e) (hc0 : 0 ≤ cur) (hc1 : cur ≤ 1439) :
    calculateWindow .after_food T mt = (max 0 (T - 60), T + 150)
    ∧ calculateWindow .before_food T mt = (max 0 (T - 120), T + 60)
    ∧ calculateWindow .with_food T mt = (max 0 (T - 60), T + 60)
    ∧ (isTimeInWindow cur s e = true
        ↔ ((s ≤ cur ∧ cur ≤ 1439) ∨ (0 ≤ cur ∧ cur ≤ e))) := by
  refine ⟨rfl, rfl, rfl, ?_⟩
  unfold isTimeInWindow
  rw [if_pos hwrap]
  simp only [Bool.or_eq_true, decide_eq_true_eq, ge_iff_le]
  omega

/-- C3 at a concrete input: meal time 00:30 (clamped start) and the
wrapping window [23:20, 01:40] around the current time 00:30. -/
theorem window_formulas_check :
    (1400 : ℤ) > 100 ∧ (0 : ℤ) ≤ 30 ∧ (30 : ℤ) ≤ 1439
    ∧ (calculateWindow .after_food 30 {} = (max 0 (30 - 60), 30 + 150)
      ∧ calculateWindow .before_food 30 {} = (max 0 (30 - 120), 30 + 60)
      ∧ calculateWindow .with_food 30 {} = (max 0 (30 - 60), 30 + 60)
      ∧ (isTimeInWindow 30 1400 100 = true
          ↔ (((1400 : ℤ) ≤ 30 ∧ (30 : ℤ) ≤ 1439)
              ∨ ((0 : ℤ) ≤ 30 ∧ (30 : ℤ) ≤ 100)))) :=
  ⟨by decide, by decide, by decide,
    window_formulas 30 {} 30 1400 100 (by decide) (by decide) (by decide)⟩

/-- C4: with no meal-time rows stored for the patient the timing wrapper
permits the dose with a configuration-missing reason, for every frequency
and timing relation; a failed fetch (the catch branch) likewise permits. -/
theorem missing_config_permissive (frequency : ℕ) (rel : TimingRelation)
    (now : ℤ) (err : String) :
    (checkMedicationTimingWindow (.ok []) frequency rel now).canTake = true
    ∧ (checkMedicationTimingWindow (.ok []) frequency rel now).reason
        = "Meal times not configured - taking anytime"
    ∧ (checkMedicationTimingWindow (.error err) frequency rel now).canTake
        = true :=
  ⟨rfl, rfl, rfl⟩

/-- C8: the frequency-to-meal assignment is the fixed table 1 to lunch,
2 to breakfast and dinner, 3 to breakfast, lunch and dinner, 4 to all four
meals, and anything else to lunch; and with the three mandatory meal times
present, frequency 3 yields exactly the breakfast, lunch and dinner
windows in that order, for every timing relation and meal-time values. -/
theorem frequency_meal_assignment (rel : TimingRelation) (mt : MealTimes)
    (tb tl td : ℤ) (f : ℕ) (hb : mt.breakfast = some tb)
    (hl : mt.lunch = some tl) (hd : mt.dinner = some td)
    (hf : f ≠ 1 ∧ f ≠ 2 ∧ f ≠ 3 ∧ f ≠ 4) :
    getMealsForFrequency 1 = [.lunch]
    ∧ getMealsForFrequency 2 = [.breakfast, .dinner]
    ∧ getMealsForFrequency 3 = [.breakfast, .lunch, .dinner]
    ∧ getMealsForFrequency 4 = [.breakfast, .lunch, .dinner, .snack]
    ∧ getMealsForFrequency f = [.lunch]
    ∧ (calculateMedicationWindows 3 rel mt).map (fun w => w.mealType)
        = [.breakfast, .lunch, .dinner] := by
  obtain ⟨h1, h2, h3, h4⟩ := hf
  refine ⟨rfl, rfl, rfl, rfl, ?_, ?_⟩
  · cases f with
    | zero => rfl
    | succ f1 =>
      cases f1 with
      | zero => exact absurd rfl h1
      | succ f2 =>
        cases f2 with
        | zero => exact absurd rfl h2
        | succ f3 =>
          cases f3 with
          | zero => exact absurd rfl h3
          | succ f4 =>
            cases f4 with
            | zero => exact absurd rfl h4
            | succ f5 => rfl
  · simp [calculateMedicationWindows, getMealsForFrequency, MealTimes.get,
      hb, hl, hd]

/-- C8 at a concrete input: default meal times and the out-of-table
frequency 7. -/
theorem frequency_meal_assignment_check :
    ({ breakfast := some 480, lunch := some 750, dinner := some 1140 }
        : MealTimes).breakfast = some 480
    ∧ (7 : ℕ) ≠ 1
    ∧ (getMealsForFrequency 7 = [.lunch]
      ∧ (calculateMedicationWindows 3 .before_food
          { breakfast := some 480, lunch := some 750, dinner := some 1140 }).map
            (fun w => w.mealType) = [.breakfast, .lunch, .dinner]) := by
  have h := frequency_meal_assignment .before_food
    { breakfast := some 480, lunch := some 750, dinner := some 1140 }
    480 750 1140 7 rfl rfl rfl (by decide)
  exact ⟨rfl, by decide, h.2.2.2.2⟩

/-- C10: called with a present-but-empty meal-times mapping (no time for
any assigned meal) and any timing relation other than anytime, the pure
validator blocks the dose: canTake is false, with no current windows, no
next window and no countdown. -/
theorem empty_config_blocks (frequency : ℕ) (rel : TimingRelation)
    (mt : MealTimes) (now : ℤ) (hrel : rel ≠ .anytime)
    (hnone : ∀ m ∈ getMealsForFrequency frequency, mt.get m = none) :
    (validateMedicationTiming frequency rel mt now).canTake = false
    ∧ (validateMedicationTiming frequency rel mt now).currentWindows = []
    ∧ (validateMedicationTiming frequency rel mt now).nextWindow = none
    ∧ (validateMedicationTiming frequency rel mt now).timeUntilNextWindow
        = none := by
  have hwin : calculateMedicationWindows frequency rel mt = [] := by
    apply List.filterMap_eq_nil.mpr
    intro m hm
    rw [hnone m hm]
    rfl
  unfold validateMedicationTiming
  rw [if_neg hrel]
  dsimp only
  rw [hwin]
  simp

/-- C10 at a concrete input: frequency 2, after_food, the empty mapping. -/
theorem empty_config_blocks_check :
    TimingRelation.after_food ≠ TimingRelation.anytime
    ∧ (∀ m ∈ getMealsForFrequency 2, ({} : MealTimes).get m = none)
    ∧ ((validateMedicationTiming 2 .after_food {} 600).canTake = false
      ∧ (validateMedicationTiming 2 .after_food {} 600).currentWindows = []
      ∧ (validateMedicationTiming 2 .after_food {} 600).nextWindow = none
      ∧ (validateMedicationTiming 2 .after_food {} 600).timeUntilNextWindow
          = none) :=
  ⟨by decide, by decide,
    empty_config_blocks 2 .after_food {} 600 (by decide) (by decide)⟩

/-- An outcome flagged accepted is an application of the accepted
constructor. -/
theorem logOutcome_accepted_exists (o : LogOutcome)
    (h : o.isAccepted = true) :
    ∃ m e ls r w, o = .accepted m e ls r w := by
  cases o with
  | rejected r w => exact absurd h (by simp [LogOutcome.isAccepted])
  | accepted m e ls r w => exact ⟨m, e, ls, r, w, rfl⟩

/-- C5: calling the dose-logging aggregator with override a true bool
yields an accepted dose whatever the checks say: remainingQuantity is
decremented floored at 0, the status is set to completed when it reaches
0, and the appended dose_taken event carries the override flag and every
failing check's message among its warnings. -/
theorem override_forces_accept (med : Medication) (lastDose : Option ℚ)
    (mealFetch : Except String (List MealRec)) (nowUTC : ℚ)
    (nowClock : ℤ) :
    let basic := canTakeMedicationNow lastDose (med.frequency : ℚ) nowUTC
    let timing := checkMedicationTimingWindow mealFetch med.frequency
      med.timingRelation nowClock
    let o := logMedicationTaken med lastDose mealFetch nowUTC nowClock true
    o.isAccepted = true
    ∧ (o.newMed.map fun m => m.remainingQuantity)
        = some (max 0 (med.remainingQuantity - 1))
    ∧ (max 0 (med.remainingQuantity - 1) = 0 →
        (o.newMed.map fun m => m.status) = some .completed)
    ∧ (o.event.map fun ev => ev.wasOverridden) = some true
    ∧ (o.event.map fun ev => ev.warnings) = some o.warnings
    ∧ (basic.canTake = false → intervalWarning basic ∈ o.warnings)
    ∧ (timing.canTake = false → timing.reason ∈ o.warnings)
    ∧ (med.expiryDate ≤ nowUTC → expiryWarning med ∈ o.warnings)
    ∧ (med.status ≠ .active →
        "This medication is currently paused or inactive" ∈ o.warnings)
    ∧ (med.remainingQuantity ≤ 0 →
        "No doses remaining - please contact your caregiver" ∈ o.warnings)
    := by
  dsimp only
  have hw := logMedicationTaken_warnings med lastDose mealFetch nowUTC
    nowClock true
  refine ⟨rfl, rfl, ?_, rfl, rfl, ?_, ?_, ?_, ?_, ?_⟩
  · intro h0
    show some (if max 0 (med.remainingQuantity - 1) = 0
        then MedStatus.completed else med.status) = some MedStatus.completed
    rw [if_pos h0]
  · intro hb
    rw [hw, blockReasonAndWarnings_snd]
    simp [hb]
  · intro ht
    rw [hw, blockReasonAndWarnings_snd]
    simp [ht]
  · intro he
    have he' : decide (med.expiryDate ≤ nowUTC) = true := decide_eq_true he
    rw [hw, blockReasonAndWarnings_snd]
    simp [he']
  · intro ha
    have ha' : decide (med.status = .active) = false := decide_eq_false ha
    rw [hw, blockReasonAndWarnings_snd]
    simp [ha']
  · intro hq
    have hq' : decide (med.remainingQuantity > 0) = false :=
      decide_eq_false (not_lt.mpr hq)
    rw [hw, blockReasonAndWarnings_snd]
    simp [hq']

/-- C5 at a concrete input: a medication failing all five checks, logged
with override. -/
theorem override_forces_accept_check :
    (canTakeMedicationNow (some 0) ((medAllFail.frequency : ℕ) : ℚ)
        360000).canTake = false
    ∧ (checkMedicationTimingWindow (.ok sampleMealRows) medAllFail.frequency
        medAllFail.timingRelation 600).canTake = false
    ∧ medAllFail.expiryDate ≤ 360000
    ∧ medAllFail.status ≠ .active
    ∧ medAllFail.remainingQuantity ≤ 0
    ∧ (logMedicationTaken medAllFail (some 0) (.ok sampleMealRows) 360000
        600 true).isAccepted = true
    ∧ ((logMedicationTaken medAllFail (some 0) (.ok sampleMealRows) 360000
        600 true).newMed.map fun m => m.remainingQuantity) = some 0
    ∧ ((logMedicationTaken medAllFail (some 0) (.ok sampleMealRows) 360000
        600 true).newMed.map fun m => m.status) = some .completed
    ∧ ((logMedicationTaken medAllFail (some 0) (.ok sampleMealRows) 360000
        600 true).event.map fun ev => ev.wasOverridden) = some true
    ∧ intervalWarning (canTakeMedicationNow (some 0)
        ((medAllFail.frequency : ℕ) : ℚ) 360000)
        ∈ (logMedicationTaken medAllFail (some 0) (.ok sampleMealRows)
            360000 600 true).warnings
    ∧ (checkMedicationTimingWindow (.ok sampleMealRows) medAllFail.frequency
        medAllFail.timingRelation 600).reason
        ∈ (logMedicationTaken medAllFail (some 0) (.ok sampleMealRows)
            360000 600 true).warnings
    ∧ expiryWarning medAllFail
        ∈ (logMedicationTaken medAllFail (some 0) (.ok sampleMealRows)
            360000 600 true).warnings
    ∧ "This medication is currently paused or inactive"
        ∈ (logMedicationTaken medAllFail (some 0) (.ok sampleMealRows)
            360000 600 true).warnings
    ∧ "No doses remaining - please contact your caregiver"
        ∈ (logMedicationTaken medAllFail (some 0) (.ok sampleMealRows)
            360000 600 true).warnings := by
  have hb : (canTakeMedicationNow (some 0) ((medAllFail.frequency : ℕ) : ℚ)
      360000).canTake = false := by
    simp [canTakeMedicationNow, getCurrentIST, convertUTCToIST, istOffsetMs,
      msPerHour, medAllFail]
    norm_num
  have ht : (checkMedicationTimingWindow (.ok sampleMealRows)
      medAllFail.frequency medAllFail.timingRelation 600).canTake
      = false := by decide
  have he : medAllFail.expiryDate ≤ (360000 : ℚ) := by
    norm_num [medAllFail]
  have ha : medAllFail.status ≠ .active := by decide
  have hq : medAllFail.remainingQuantity ≤ 0 := by decide
  have h := override_forces_accept medAllFail (some 0) (.ok sampleMealRows)
    360000 600
  dsimp only at h
  obtain ⟨h1, h2, h3, h4, h5, h6, h7, h8, h9, h10⟩ := h
  have hz : max 0 (medAllFail.remainingQuantity - 1) = 0 := by decide
  refine ⟨hb, ht, he, ha, hq, h1, ?_, ?_, h4, h6 hb, h7 ht, h8 he, h9 ha,
    h10 hq⟩
  · rw [h2, hz]
  · exact h3 hz

/-- C6 fails as stated: an accepted dose on an active medication with
stock 0 (via the checkless barcode recording path, or via the aggregator
with override) leaves the stock at 0 rather than decrementing it by
exactly 1. -/
theorem dose_decrement_exact_fails :
    medEmptyActive.remainingQuantity = 0
    ∧ (recordMedicationViaBarcode medEmptyActive 5).remainingQuantity = 0
    ∧ (recordMedicationViaBarcode medEmptyActive 5).remainingQuantity
        ≠ medEmptyActive.remainingQuantity - 1
    ∧ (logMedicationTaken medEmptyActive none (.error "db") 0 0
        true).isAccepted = true
    ∧ ((logMedicationTaken medEmptyActive none (.error "db") 0 0
          true).newMed.map fun m => m.remainingQuantity)
        ≠ some (medEmptyActive.remainingQuantity - 1) := by
  refine ⟨rfl, ?_, ?_, rfl, ?_⟩ <;> decide

/-- C6 (amended): every accepted dose event sets remainingQuantity to
max(0, old - 1) - a decrement of exactly 1 whenever the stock was
positive - so it never becomes negative, and the status is set to
completed exactly when the new stock is 0 (or it already was completed);
this holds for both dose-logging operations. -/
theorem dose_decrement_floored :
    (∀ (med : Medication) (takenTime : ℚ),
      doseDecrementInvariant med.remainingQuantity med.status
        (recordMedicationViaBarcode med takenTime))
    ∧ (∀ (med : Medication) (lastDose : Option ℚ)
        (mealFetch : Except String (List MealRec)) (nowUTC : ℚ)
        (nowClock : ℤ) (override : Bool) (m : Medication) (e : DoseEvent)
        (ls : Option ℤ) (r : String) (w : List String),
        logMedicationTaken med lastDose mealFetch nowUTC nowClock override
            = .accepted m e ls r w →
        doseDecrementInvariant med.remainingQuantity med.status m) := by
  have hinv : ∀ (oldQty : ℤ) (oldStatus : MedStatus) (m : Medication),
      m.remainingQuantity = max 0 (oldQty - 1) →
      m.status = (if max 0 (oldQty - 1) = 0 then MedStatus.completed
        else oldStatus) →
      doseDecrementInvariant oldQty oldStatus m := by
    intro oldQty oldStatus m hq hs
    refine ⟨hq, ?_, ?_, ?_⟩
    · rw [hq]; exact le_max_left _ _
    · intro h1
      rw [hq]
      exact max_eq_right (by omega)
    · rw [hs, hq]
      by_cases h0 : max 0 (oldQty - 1) = 0
      · simp [h0]
      · simp [h0]
  constructor
  · intro med takenTime
    exact hinv _ _ _ rfl rfl
  · intro med lastDose mealFetch nowUTC nowClock override m e ls r w hacc
    unfold logMedicationTaken at hacc
    dsimp only at hacc
    split at hacc
    · exact absurd hacc (by simp)
    · rw [LogOutcome.accepted.injEq] at hacc
      obtain ⟨hm, _, _, _, _⟩ := hacc
      rw [← hm]
      exact hinv _ _ _ rfl rfl

/-- C6 (amended) at a concrete input: the exhausted active medication,
dosed via the barcode path and via the aggregator with override. -/
theorem dose_decrement_floored_check :
    doseDecrementInvariant medEmptyActive.remainingQuantity
      medEmptyActive.status (recordMedicationViaBarcode medEmptyActive 5)
    ∧ doseDecrementInvariant medEmptyActive.remainingQuantity
        medEmptyActive.status
        ((logMedicationTaken medEmptyActive none (.error "db") 0 0
            true).newMed.getD medEmptyActive) := by
  refine ⟨dose_decrement_floored.1 medEmptyActive 5, ?_⟩
  obtain ⟨m, e, ls, r, w, hacc⟩ := logOutcome_accepted_exists
    (logMedicationTaken medEmptyActive none (.error "db") 0 0 true) rfl
  have h := dose_decrement_floored.2 medEmptyActive none (.error "db") 0 0
    true m e ls r w hacc
  rw [hacc]
  simpa [LogOutcome.newMed] using h

/-- A string differs from itself with a suffix appended. -/
theorem append_dash_one_ne (s : String) : s ≠ s ++ "-1" := by
  intro h
  have hl := congrArg String.length h
  simp [String.length_append] at hl
  exact absurd hl (by decide)

/-- One unfolding step of the collision-resolution loop. -/
theorem barcodeLoop_step (store : List MedRecord)
    (medId base fb : String) (fuel suffix : ℕ) :
    barcodeLoop store medId base fb (fuel + 1) suffix =
      if !hasOtherHolder store medId (barcodeCandidate base suffix) then
        barcodeCandidate base suffix
      else if suffix + 1 > 999 then fb
      else barcodeLoop store medId base fb fuel (suffix + 1) := rfl

/-- A bare base code built from an 8-character upper-alphanumeric hash
matches the contract pattern. -/
theorem matchesBarcodePattern_base (H : String) (hlen : H.length = 8)
    (halnum : H.data.all isUpperAlnum = true) :
    matchesBarcodePattern ("MT" ++ H) = true := by
  unfold matchesBarcodePattern
  rw [String.data_append]
  have hdl : H.data.length = 8 := hlen
  have htake : H.data.take 8 = H.data := List.take_of_length_le (le_of_eq hdl)
  have hdrop : H.data.drop 8 = [] := List.drop_eq_nil_of_le (le_of_eq hdl)
  show (match 'M' :: 'T' :: H.data with
    | 'M' :: 'T' :: rest =>
      (rest.take 8).length == 8 && (rest.take 8).all isUpperAlnum &&
        (match rest.drop 8 with
          | [] => true
          | '-' :: ds => !ds.isEmpty && ds.all Char.isDigit
          | _ => false)
    | _ => false) = true
  simp [htake, hdrop, hdl, halnum]

/-- A base code with the -1 suffix matches the contract pattern. -/
theorem matchesBarcodePattern_dash_one (H : String) (hlen : H.length = 8)
    (halnum : H.data.all isUpperAlnum = true) :
    matchesBarcodePattern (("MT" ++ H) ++ "-1") = true := by
  unfold matchesBarcodePattern
  have hdl : H.data.length = 8 := hlen
  have hdata : (("MT" ++ H) ++ "-1").data
      = 'M' :: 'T' :: (H.data ++ ['-', '1']) := by
    simp [String.data_append]
  rw [hdata]
  have htake : (H.data ++ ['-', '1']).take 8 = H.data := by
    rw [← hdl]
    exact List.take_left H.data _
  have hdrop : (H.data ++ ['-', '1']).drop 8 = ['-', '1'] := by
    rw [← hdl]
    exact List.drop_left H.data _
  show (match 'M' :: 'T' :: (H.data ++ ['-', '1']) with
    | 'M' :: 'T' :: rest =>
      (rest.take 8).length == 8 && (rest.take 8).all isUpperAlnum &&
        (match rest.drop 8 with
          | [] => true
          | '-' :: ds => !ds.isEmpty && ds.all Char.isDigit
          | _ => false)
    | _ => false) = true
  simp [htake, hdrop, hdl, halnum]


/-- C7: for two distinct medication identifiers sharing their last 8
characters, generated one after the other against the same store (whose
other records hold neither candidate code), the generator returns two
distinct codes: the first is MT plus the upper-cased last 8 characters,
the second carries the -1 suffix; each returned code is held by no other
record at the time of its uniqueness check, and both match the contract
pattern. -/
theorem barcode_unique_under_collision (store : List MedRecord)
    (idA idB fbA fbB : String) (hAB : idA ≠ idB)
    (hhash : idHash idB = idHash idA)
    (hlen : (idHash idA).length = 8)
    (halnum : (idHash idA).data.all isUpperAlnum = true)
    (hfresh : ∀ r ∈ store, r.barcodeData ≠ "MT" ++ idHash idA
      ∧ r.barcodeData ≠ ("MT" ++ idHash idA) ++ "-1") :
    generateShortBarcodeData store idA fbA = "MT" ++ idHash idA
    ∧ generateShortBarcodeData
        (store ++ [⟨idA, generateShortBarcodeData store idA fbA⟩]) idB fbB
      = ("MT" ++ idHash idA) ++ "-1"
    ∧ generateShortBarcodeData store idA fbA
        ≠ generateShortBarcodeData
            (store ++ [⟨idA, generateShortBarcodeData store idA fbA⟩]) idB fbB
    ∧ hasOtherHolder store idA (generateShortBarcodeData store idA fbA)
        = false
    ∧ hasOtherHolder
        (store ++ [⟨idA, generateShortBarcodeData store idA fbA⟩]) idB
        (generateShortBarcodeData
          (store ++ [⟨idA, generateShortBarcodeData store idA fbA⟩]) idB fbB)
        = false
    ∧ matchesBarcodePattern (generateShortBarcodeData store idA fbA) = true
    ∧ matchesBarcodePattern
        (generateShortBarcodeData
          (store ++ [⟨idA, generateShortBarcodeData store idA fbA⟩]) idB fbB)
        = true := by
  -- the first candidate for idA is free in the store
  have hfree1 : hasOtherHolder store idA ("MT" ++ idHash idA) = false := by
    apply List.any_eq_false.mpr
    intro r hr
    simp [decide_eq_true_eq, (hfresh r hr).1]
  have hcode1 : generateShortBarcodeData store idA fbA
      = "MT" ++ idHash idA := by
    unfold generateShortBarcodeData
    rw [show (1001 : ℕ) = 1000 + 1 by norm_num, barcodeLoop_step]
    simp [barcodeCandidate, hfree1]
  -- the store extended with the record for idA
  have hheld : hasOtherHolder
      (store ++ [⟨idA, "MT" ++ idHash idA⟩]) idB
      ("MT" ++ idHash idA) = true := by
    apply List.any_eq_true.mpr
    refine ⟨⟨idA, "MT" ++ idHash idA⟩, by simp, ?_⟩
    simp [hAB, Ne.symm]
  have hfree2 : hasOtherHolder
      (store ++ [⟨idA, "MT" ++ idHash idA⟩]) idB
      (("MT" ++ idHash idA) ++ "-1") = false := by
    apply List.any_eq_false.mpr
    intro r hr
    rcases List.mem_append.mp hr with hr' | hr'
    · simp [decide_eq_true_eq, (hfresh r hr').2]
    · simp at hr'
      subst hr'
      simp [decide_eq_true_eq]
      intro h
      exact absurd h (append_dash_one_ne _)
  have hcand1 : barcodeCandidate ("MT" ++ idHash idB) 1
      = ("MT" ++ idHash idA) ++ "-1" := by
    rw [hhash]
    show (("MT" ++ idHash idA) ++ "-") ++ toString (1 : ℕ)
      = ("MT" ++ idHash idA) ++ "-1"
    rw [String.append_assoc]
    rfl
  have hcode2 : generateShortBarcodeData
      (store ++ [⟨idA, "MT" ++ idHash idA⟩]) idB fbB
      = ("MT" ++ idHash idA) ++ "-1" := by
    unfold generateShortBarcodeData
    rw [show (1001 : ℕ) = 1000 + 1 by norm_num, barcodeLoop_step]
    rw [show barcodeCandidate ("MT" ++ idHash idB) 0 = "MT" ++ idHash idA by
      rw [hhash]; rfl]
    rw [hheld]
    rw [show (1000 : ℕ) = 999 + 1 by norm_num, barcodeLoop_step]
    rw [hcand1, hfree2]
    simp
  rw [hcode1, hcode2]
  refine ⟨rfl, rfl, ?_, hfree1, hfree2, ?_, ?_⟩
  · exact append_dash_one_ne _
  · exact matchesBarcodePattern_base _ hlen halnum
  · exact matchesBarcodePattern_dash_one _ hlen halnum


/-- C7 at a concrete input: two 24-character identifiers differing only in
their first character, against an initially empty store. -/
theorem barcode_unique_under_collision_check :
    ("64a1b2c3d4e5f6a7b8c9d0aa" : String) ≠ "x4a1b2c3d4e5f6a7b8c9d0aa"
    ∧ idHash "x4a1b2c3d4e5f6a7b8c9d0aa" = idHash "64a1b2c3d4e5f6a7b8c9d0aa"
    ∧ (idHash "64a1b2c3d4e5f6a7b8c9d0aa").length = 8
    ∧ generateShortBarcodeData [] "64a1b2c3d4e5f6a7b8c9d0aa" "FB1"
        = "MT" ++ idHash "64a1b2c3d4e5f6a7b8c9d0aa"
    ∧ generateShortBarcodeData
        [⟨"64a1b2c3d4e5f6a7b8c9d0aa",
          generateShortBarcodeData [] "64a1b2c3d4e5f6a7b8c9d0aa" "FB1"⟩]
        "x4a1b2c3d4e5f6a7b8c9d0aa" "FB2"
        = ("MT" ++ idHash "64a1b2c3d4e5f6a7b8c9d0aa") ++ "-1"
    ∧ generateShortBarcodeData [] "64a1b2c3d4e5f6a7b8c9d0aa" "FB1"
        ≠ generateShortBarcodeData
            [⟨"64a1b2c3d4e5f6a7b8c9d0aa",
              generateShortBarcodeData [] "64a1b2c3d4e5f6a7b8c9d0aa" "FB1"⟩]
            "x4a1b2c3d4e5f6a7b8c9d0aa" "FB2"
    ∧ hasOtherHolder [] "64a1b2c3d4e5f6a7b8c9d0aa"
        (generateShortBarcodeData [] "64a1b2c3d4e5f6a7b8c9d0aa" "FB1")
        = false
    ∧ matchesBarcodePattern
        (generateShortBarcodeData [] "64a1b2c3d4e5f6a7b8c9d0aa" "FB1")
        = true
    ∧ matchesBarcodePattern
        (generateShortBarcodeData
          [⟨"64a1b2c3d4e5f6a7b8c9d0aa",
            generateShortBarcodeData [] "64a1b2c3d4e5f6a7b8c9d0aa" "FB1"⟩]
          "x4a1b2c3d4e5f6a7b8c9d0aa" "FB2") = true := by
  have h := barcode_unique_under_collision []
    "64a1b2c3d4e5f6a7b8c9d0aa" "x4a1b2c3d4e5f6a7b8c9d0aa" "FB1" "FB2"
    (by decide) (by decide) (by decide) (by decide)
    (by intro r hr; simp at hr)
  exact ⟨by decide, by decide, by decide, h.1, h.2.1, h.2.2.1,
    h.2.2.2.1, h.2.2.2.2.2.1, h.2.2.2.2.2.2⟩

end MediTrack
